import Mathlib

/-!
Verification development for the GreenSupply AI frontend controller
(frontend/script.js).  The browser-side state machine is embedded
shallowly: the mutable globals (truckData, alertsList, chartData,
totalAlertCount and the AI panel) become a ClientState record, each
message handler becomes a pure state-transformation function, and DOM
writes become rendered-view functions.  Numbers are rationals; the
wall-clock time label that script.js derives from the current date is
threaded as an explicit String argument, since it is an environment
input.  The backend engine is not part of the sources; the one claim
about it (edge-triggered alerting) is modelled from the spec, marked
as such below.
-/

namespace GreenSupply

/-- A truck record as carried on the wire and stored in truckData
(script.js uses the fields verbatim). -/
structure Truck where
  truck_id : String
  origin : String
  destination : String
  latitude : ℚ
  longitude : ℚ
  speed : ℚ
  temperature : ℚ
  fuel_level : ℚ
  engine_load : ℚ
  driver : String
  driver_license : String
  eta_minutes : ℚ
  remaining_distance_miles : ℚ
  risk_level : String
  explanation : String
deriving DecidableEq, Repr

/-- An alert record as carried on the wire and stored in alertsList. -/
structure Alert where
  truck_id : String
  severity : String
  title : String
  message : String
  ai_insight : Option String
  timestamp : String
deriving DecidableEq, Repr

/-- KPI block of a snapshot. -/
structure KPI where
  active_trucks : ℚ
  on_time_pct : ℚ
  delayed : ℚ
  high_risk : ℚ
deriving DecidableEq, Repr

/-- Fleet-risk block of a snapshot. -/
structure FleetRisk where
  overall_score : ℚ
  overall_level : String
  high_risk_count : ℚ
deriving DecidableEq, Repr

/-- Fleet-stats block of a snapshot. -/
structure FleetStats where
  avg_fleet_speed : ℚ
  urban_avg_speed : ℚ
  interstate_avg_speed : ℚ
deriving DecidableEq, Repr

/-- One chart sample: script.js pushes objects with a time label t and
a value v onto chartData.eta, chartData.speed, chartData.risk. -/
structure Sample where
  t : String
  v : ℚ
deriving DecidableEq, Repr

/-- The chartData global of script.js: three per-metric buffers. -/
structure ChartData where
  eta : List Sample
  speed : List Sample
  risk : List Sample
deriving DecidableEq, Repr

/-- An eta_history entry of an initial_state message. -/
structure HistEta where
  timestamp : String
  avg_eta : ℚ
deriving DecidableEq, Repr

/-- A speed_history entry of an initial_state message. -/
structure HistSpeed where
  timestamp : String
  avg_speed : ℚ
deriving DecidableEq, Repr

/-- A risk_history entry of an initial_state message. -/
structure HistRisk where
  timestamp : String
  risk_score : ℚ
deriving DecidableEq, Repr

/-- Payload of an ai_response message; optional fields are Option,
matching the undefined checks in handleAIResponse. -/
structure AIResp where
  response : Option String
  token_usage : Option ℚ
  max_tokens : Option ℚ
  source : Option String
deriving DecidableEq, Repr

/-- The AI-assistant panel portion of the page that handleAIResponse
mutates: chat log (role, content), typing indicator, token display and
the source badge text. -/
structure AIPanel where
  chat : List (String × String)
  typing : Bool
  tokenUsed : ℚ
  tokenBarPct : ℚ
  sourceBadge : String
deriving DecidableEq, Repr

/-- Payload of an initial_state message.  The history arrays are
Option because handleInitialState guards each with a truthiness
check before iterating. -/
structure InitialState where
  trucks : List Truck
  alerts : List Alert
  kpi : Option KPI
  fleet_risk : Option FleetRisk
  fleet_stats : Option FleetStats
  eta_history : Option (List HistEta)
  speed_history : Option (List HistSpeed)
  risk_history : Option (List HistRisk)
deriving DecidableEq, Repr

/-- Payload of a stream_update message. -/
structure StreamUpdate where
  trucks : List Truck
  alerts : List Alert
  kpi : Option KPI
  fleet_risk : Option FleetRisk
  fleet_stats : Option FleetStats
deriving DecidableEq, Repr

/-- The client-side mutable state of script.js that the message
handlers touch: truckData (a key-ordered object, modelled as an
association list in insertion order), alertsList, chartData,
totalAlertCount, and the AI panel. -/
structure ClientState where
  truckData : List (String × Truck)
  alertsList : List Alert
  chartData : ChartData
  totalAlertCount : Nat
  aiPanel : AIPanel
deriving DecidableEq, Repr

/-- The initial values of the globals at page load. -/
def initClientState : ClientState :=
  { truckData := []
    alertsList := []
    chartData := { eta := [], speed := [], risk := [] }
    totalAlertCount := 0
    aiPanel := { chat := [], typing := false, tokenUsed := 0, tokenBarPct := 0, sourceBadge := "RULE-BASED" } }

/-- JavaScript Math.round: round half toward positive infinity. -/
def jsRound (q : ℚ) : ℤ := Int.floor (q + 1/2)

/-- Assignment truckData[t.truck_id] = t on a JS object: replace in
place when the key exists, append otherwise (string-key insertion
order). -/
def upsert (tbl : List (String × Truck)) (t : Truck) : List (String × Truck) :=
  if tbl.any (fun p => p.1 = t.truck_id) then
    tbl.map (fun p => if p.1 = t.truck_id then (p.1, t) else p)
  else
    tbl ++ [(t.truck_id, t)]

/-- data.trucks.forEach upserting each truck into the table. -/
def upsertAll (tbl : List (String × Truck)) (ts : List Truck) : List (String × Truck) :=
  ts.foldl upsert tbl

/-- Push one sample, then a single shift when the buffer exceeds 30
(the push-then-trim step of updateCharts). -/
def pushTrim (b : List Sample) (s : Sample) : List Sample :=
  let b1 := b ++ [s]
  if b1.length > 30 then b1.tail else b1

/-- alertsList.slice(-200) applied only when the list exceeds 200
entries. -/
def capAlerts (l : List Alert) : List Alert :=
  if l.length > 200 then l.drop (l.length - 200) else l

/-- The chart-buffer effect of updateCharts: compute the fleet average
ETA from the truck table, read avg speed and risk score from the
message blocks (0 when absent), and push-trim one sample per metric
with the current time label. -/
def updateChartsData (tbl : List (String × Truck)) (fleetStats : Option FleetStats)
    (fleetRisk : Option FleetRisk) (now : String) (cd : ChartData) : ChartData :=
  let trucks := tbl.map Prod.snd
  let avgEta : ℚ :=
    if trucks.length = 0 then 0
    else (trucks.map Truck.eta_minutes).sum / (trucks.length : ℚ)
  let avgSpeed : ℚ := match fleetStats with
    | some s => s.avg_fleet_speed
    | none => 0
  let riskScore : ℚ := match fleetRisk with
    | some r => r.overall_score
    | none => 0
  { eta := pushTrim cd.eta { t := now, v := (jsRound avgEta : ℚ) }
    speed := pushTrim cd.speed { t := now, v := avgSpeed }
    risk := pushTrim cd.risk { t := now, v := riskScore } }

/-- Temperature in the compliant band of the doughnut chart. -/
def tempCompliant (t : Truck) : Bool :=
  28 ≤ t.temperature && t.temperature ≤ 38

/-- Temperature in the warning band of the doughnut chart. -/
def tempWarning (t : Truck) : Bool :=
  (t.temperature < 28 && 25 ≤ t.temperature) || (38 < t.temperature && t.temperature ≤ 42)

/-- Temperature in the critical band of the doughnut chart. -/
def tempCritical (t : Truck) : Bool :=
  t.temperature < 25 || 42 < t.temperature

/-- The three band counts computed by updateCharts from the truck
list. -/
def tempComplianceCounts (trucks : List Truck) : Nat × Nat × Nat :=
  (trucks.countP tempCompliant, trucks.countP tempWarning, trucks.countP tempCritical)

/-- The data actually written to the doughnut chart: the compliant
slice is replaced by 1 when it is 0 (the compliant-or-1 expression of
updateCharts). -/
def tempComplianceDisplayed (trucks : List Truck) : Nat × Nat × Nat :=
  let c := tempComplianceCounts trucks
  (if c.1 = 0 then 1 else c.1, c.2.1, c.2.2)

/-- handleInitialState: upsert every truck of the message into
truckData, replace alertsList with the message alerts, append the
history arrays (when present) to the chart buffers, then run the
chart update once. -/
def handleInitialState (st : ClientState) (now : String) (d : InitialState) : ClientState :=
  let tbl := upsertAll st.truckData d.trucks
  let cd0 := st.chartData
  let cd1 := match d.eta_history with
    | some hs => { cd0 with eta := cd0.eta ++ hs.map (fun h => { t := h.timestamp, v := (jsRound h.avg_eta : ℚ) }) }
    | none => cd0
  let cd2 := match d.speed_history with
    | some hs => { cd1 with speed := cd1.speed ++ hs.map (fun h => { t := h.timestamp, v := h.avg_speed }) }
    | none => cd1
  let cd3 := match d.risk_history with
    | some hs => { cd2 with risk := cd2.risk ++ hs.map (fun h => { t := h.timestamp, v := h.risk_score }) }
    | none => cd2
  { st with
      truckData := tbl
      alertsList := d.alerts
      chartData := updateChartsData tbl d.fleet_stats d.fleet_risk now cd3 }

/-- handleStreamUpdate: upsert the message trucks, then (only when the
update carries at least one alert) append the new alerts, cap the list
at 200 and add their number to totalAlertCount, then run the chart
update. -/
def handleStreamUpdate (st : ClientState) (now : String) (d : StreamUpdate) : ClientState :=
  let tbl := upsertAll st.truckData d.trucks
  let alerts := if d.alerts ≠ [] then capAlerts (st.alertsList ++ d.alerts) else st.alertsList
  let total := if d.alerts ≠ [] then st.totalAlertCount + d.alerts.length else st.totalAlertCount
  { st with
      truckData := tbl
      alertsList := alerts
      totalAlertCount := total
      chartData := updateChartsData tbl d.fleet_stats d.fleet_risk now st.chartData }

/-- handleAIResponse: clear the typing indicator, append the assistant
reply (a falsy response field becomes the no-response notice), update
the token display when token_usage is present (max_tokens falsy
defaults to 10000), and set the source badge from the source field. -/
def handleAIResponse (p : AIPanel) (d : AIResp) : AIPanel :=
  let text := match d.response with
    | some s => if s = "" then "No response received." else s
    | none => "No response received."
  let p1 : AIPanel := { p with typing := false, chat := p.chat ++ [("assistant", text)] }
  let p2 : AIPanel := match d.token_usage with
    | some u =>
        let maxTok : ℚ := match d.max_tokens with
          | some m => if m = 0 then 10000 else m
          | none => 10000
        { p1 with tokenUsed := u, tokenBarPct := min 100 (u / maxTok * 100) }
    | none => p1
  { p2 with sourceBadge := if d.source = some "gemini" then "GEMINI" else "RULE-BASED" }

/-- A parsed inbound message; the other constructor stands for any
type tag that the handleMessage switch does not recognise. -/
inductive Message where
  | initialState (d : InitialState)
  | streamUpdate (d : StreamUpdate)
  | aiResponse (d : AIResp)
  | pong
  | other (ty : String)
deriving DecidableEq, Repr

/-- The handleMessage dispatcher of script.js. -/
def handleMessage (st : ClientState) (now : String) : Message → ClientState
  | Message.initialState d => handleInitialState st now d
  | Message.streamUpdate d => handleStreamUpdate st now d
  | Message.aiResponse d => { st with aiPanel := handleAIResponse st.aiPanel d }
  | Message.pong => st
  | Message.other _ => st

/-- The ws.onmessage wrapper: a JSON parse failure (none) is caught
and leaves the state alone; otherwise the parsed message is
dispatched. -/
def onWsMessage (st : ClientState) (now : String) : Option Message → ClientState
  | none => st
  | some m => handleMessage st now m

/-- getMarkerColor of script.js. -/
def getMarkerColor (riskLevel : String) : String :=
  if riskLevel = "CRITICAL" then "#ef4444"
  else if riskLevel = "HIGH" then "#f97316"
  else if riskLevel = "MEDIUM" then "#eab308"
  else "#3cf91a"

/-- The badge style written by updateRiskGauge: card-badge plus the
level-selected suffix, anything outside LOW/MEDIUM/HIGH falling to
badge-critical. -/
def riskBadgeStyle (level : String) : String :=
  "card-badge " ++
    (if level = "LOW" then "badge-low"
     else if level = "MEDIUM" then "badge-medium"
     else if level = "HIGH" then "badge-high"
     else "badge-critical")

/-- The gauge colour chosen by updateRiskGauge, anything outside
LOW/MEDIUM/HIGH falling to the critical red. -/
def riskGaugeColor (level : String) : String :=
  if level = "LOW" then "#3cf91a"
  else if level = "MEDIUM" then "#eab308"
  else if level = "HIGH" then "#f97316"
  else "#ef4444"

/-- The analytics stats written by updateAnalyticsStats. -/
structure AnalyticsStats where
  totalTrucks : Nat
  onTimePct : ℚ
  avgSpeed : ℤ
  highRisk : ℚ
  totalAlerts : Nat
deriving DecidableEq, Repr

/-- updateAnalyticsStats: truck count from truckData, KPI/speed/risk
figures from the message blocks (0 when absent), and the uncapped
totalAlertCount as the total-alerts stat. -/
def updateAnalyticsStats (st : ClientState) (kpi : Option KPI)
    (fs : Option FleetStats) (fr : Option FleetRisk) : AnalyticsStats :=
  { totalTrucks := st.truckData.length
    onTimePct := match kpi with | some k => k.on_time_pct | none => 0
    avgSpeed := match fs with | some s => jsRound s.avg_fleet_speed | none => 0
    highRisk := match fr with | some r => r.high_risk_count | none => 0
    totalAlerts := st.totalAlertCount }

/-- The alert-count badge text written at the end of
handleStreamUpdate. -/
def alertCountBadge (st : ClientState) : Nat := st.totalAlertCount

/-- The outbound effect of sendAIMessage after the shared prefix
(echo the user message, show the typing indicator). -/
inductive AIAction where
  | wsSend (ty : String) (question : String)
  | restPost (url : String) (question : String)
deriving DecidableEq, Repr

/-- Whitespace as stripped by the JavaScript string trim method. -/
def isWsChar (c : Char) : Bool :=
  c = ' ' || c = '\t' || c = '\n' || c = '\r'

/-- Drop leading whitespace characters. -/
def dropLeadingWs : List Char → List Char
  | [] => []
  | c :: cs => if isWsChar c then dropLeadingWs cs else c :: cs

/-- The JavaScript string trim method: strip whitespace from both
ends, modelled over the character list. -/
def jsTrim (s : String) : String :=
  String.mk ((dropLeadingWs ((dropLeadingWs s.data).reverse)).reverse)

/-- sendAIMessage: trim the input, do nothing when it is empty, send
an ai_question frame when the socket is open, otherwise POST the
question to the REST fallback endpoint. -/
def sendAIMessage (wsOpen : Bool) (rawInput : String) : Option AIAction :=
  let question := jsTrim rawInput
  if question = "" then none
  else if wsOpen then some (AIAction.wsSend "ai_question" question)
  else some (AIAction.restPost "/api/ai/ask" question)

/-- Delivery of an ai_response payload over the channel: it arrives as
a frame and goes through the handleMessage dispatch. -/
def wsDeliverAIResponse (st : ClientState) (now : String) (d : AIResp) : ClientState :=
  handleMessage st now (Message.aiResponse d)

/-- Delivery of the REST fallback reply: sendAIMessage pipes the
parsed JSON body straight into handleAIResponse. -/
def restDeliverAIResponse (st : ClientState) (d : AIResp) : ClientState :=
  { st with aiPanel := handleAIResponse st.aiPanel d }

/-- Modelled from the spec: the backend Anomaly and Alert Engine is
not under the sources (only the frontend is).  Per sections 4.3 and 9
of the spec, alerting keeps a per-truck per-rule previously-fired
flag and emits an alert only on the transition from not-fired to
fired.  One step takes the stored flag and the truth of the rule
condition this tick, returns the new flag and the number of alerts
emitted this tick (0 or 1). -/
def alertStep (prevFired : Bool) (condNow : Bool) : Bool × Nat :=
  (condNow, if condNow && !prevFired then 1 else 0)

/-- Modelled from the spec: running the edge-triggered rule over a
sequence of tick conditions, returning the final flag and the total
number of alerts emitted. -/
def runRule (prev : Bool) : List Bool → Bool × Nat
  | [] => (prev, 0)
  | c :: cs =>
      let s := alertStep prev c
      let r := runRule s.1 cs
      (r.1, s.2 + r.2)

/-- Folding a sequence of stream updates, each paired with its arrival
time label, over a client state. -/
def applyUpdates (st : ClientState) (us : List (StreamUpdate × String)) : ClientState :=
  us.foldl (fun s u => handleStreamUpdate s u.2 u.1) st

/-- A concrete truck value used in witnesses and counterexamples. -/
def sampleTruck (temp : ℚ) : Truck :=
  { truck_id := "TRK-01", origin := "Chicago", destination := "Dallas"
    latitude := 40, longitude := -95, speed := 55, temperature := temp
    fuel_level := 80, engine_load := 40, driver := "Ana Diaz"
    driver_license := "D123", eta_minutes := 120
    remaining_distance_miles := 100, risk_level := "LOW", explanation := "steady" }

/-- A concrete alert value used in witnesses and counterexamples. -/
def sampleAlert : Alert :=
  { truck_id := "TRK-01", severity := "warning", title := "Temp drift"
    message := "Temperature above range", ai_insight := none
    timestamp := "2024-01-01T00:00:00Z" }

-- ── Helper lemmas ──

theorem applyUpdates_nil (st : ClientState) : applyUpdates st [] = st := rfl

theorem applyUpdates_cons (st : ClientState) (u : StreamUpdate × String)
    (us : List (StreamUpdate × String)) :
    applyUpdates st (u :: us) = applyUpdates (handleStreamUpdate st u.2 u.1) us := rfl

theorem handleStreamUpdate_truckData (st : ClientState) (now : String) (d : StreamUpdate) :
    (handleStreamUpdate st now d).truckData = upsertAll st.truckData d.trucks := rfl

theorem handleStreamUpdate_alertsList (st : ClientState) (now : String) (d : StreamUpdate) :
    (handleStreamUpdate st now d).alertsList =
      if d.alerts = [] then st.alertsList else capAlerts (st.alertsList ++ d.alerts) := by
  by_cases h : d.alerts = [] <;> simp [handleStreamUpdate, h]

theorem handleStreamUpdate_total (st : ClientState) (now : String) (d : StreamUpdate) :
    (handleStreamUpdate st now d).totalAlertCount = st.totalAlertCount + d.alerts.length := by
  by_cases h : d.alerts = [] <;> simp [handleStreamUpdate, h]

theorem handleStreamUpdate_chart (st : ClientState) (now : String) (d : StreamUpdate) :
    (handleStreamUpdate st now d).chartData =
      updateChartsData (upsertAll st.truckData d.trucks) d.fleet_stats d.fleet_risk now
        st.chartData := rfl

theorem capAlerts_length (l : List Alert) : (capAlerts l).length = min l.length 200 := by
  unfold capAlerts
  split <;> simp <;> omega

theorem pushTrim_length_le (b : List Sample) (s : Sample) (h : b.length ≤ 30) :
    (pushTrim b s).length ≤ 30 := by
  by_cases hc : 30 < b.length + 1 <;>
    simp [pushTrim, hc] <;> omega

theorem updateChartsData_bounded (tbl : List (String × Truck)) (fs : Option FleetStats)
    (fr : Option FleetRisk) (now : String) (cd : ChartData)
    (he : cd.eta.length ≤ 30) (hs : cd.speed.length ≤ 30) (hr : cd.risk.length ≤ 30) :
    (updateChartsData tbl fs fr now cd).eta.length ≤ 30 ∧
    (updateChartsData tbl fs fr now cd).speed.length ≤ 30 ∧
    (updateChartsData tbl fs fr now cd).risk.length ≤ 30 := by
  refine ⟨?_, ?_, ?_⟩ <;>
    simp only [updateChartsData] <;>
    apply pushTrim_length_le <;> assumption

theorem applyUpdates_chart_bounded (us : List (StreamUpdate × String)) :
    ∀ st : ClientState,
      st.chartData.eta.length ≤ 30 → st.chartData.speed.length ≤ 30 →
      st.chartData.risk.length ≤ 30 →
      (applyUpdates st us).chartData.eta.length ≤ 30 ∧
      (applyUpdates st us).chartData.speed.length ≤ 30 ∧
      (applyUpdates st us).chartData.risk.length ≤ 30 := by
  induction us with
  | nil => intro st he hs hr; exact ⟨he, hs, hr⟩
  | cons u us ih =>
      intro st he hs hr
      rw [applyUpdates_cons]
      have hb := updateChartsData_bounded (upsertAll st.truckData u.1.trucks)
        u.1.fleet_stats u.1.fleet_risk u.2 st.chartData he hs hr
      exact ih _ (by rw [handleStreamUpdate_chart]; exact hb.1)
        (by rw [handleStreamUpdate_chart]; exact hb.2.1)
        (by rw [handleStreamUpdate_chart]; exact hb.2.2)

theorem applyUpdates_truckData_congr (us : List (StreamUpdate × String)) :
    ∀ st1 st2 : ClientState, st1.truckData = st2.truckData →
      (applyUpdates st1 us).truckData = (applyUpdates st2 us).truckData := by
  induction us with
  | nil => intro st1 st2 h; simpa using h
  | cons u us ih =>
      intro st1 st2 h
      rw [applyUpdates_cons, applyUpdates_cons]
      exact ih _ _ (by rw [handleStreamUpdate_truckData, handleStreamUpdate_truckData, h])

theorem upsert_replace_keys (tbl : List (String × Truck)) (t : Truck) :
    (tbl.map (fun p => if p.1 = t.truck_id then (p.1, t) else p)).map Prod.fst
      = tbl.map Prod.fst := by
  induction tbl with
  | nil => rfl
  | cons hd tl ih =>
      simp only [List.map_cons, List.cons.injEq]
      exact ⟨by split <;> rfl, ih⟩

theorem upsert_keys_mem (tbl : List (String × Truck)) (t : Truck) (k : String)
    (hk : k ∈ tbl.map Prod.fst) : k ∈ (upsert tbl t).map Prod.fst := by
  unfold upsert
  split
  · rw [upsert_replace_keys]; exact hk
  · rw [List.map_append]; exact List.mem_append_left _ hk

theorem upsertAll_keys_mem (ts : List Truck) :
    ∀ (tbl : List (String × Truck)) (k : String), k ∈ tbl.map Prod.fst →
      k ∈ (upsertAll tbl ts).map Prod.fst := by
  induction ts with
  | nil => intro tbl k hk; exact hk
  | cons t ts ih =>
      intro tbl k hk
      exact ih _ _ (upsert_keys_mem tbl t k hk)

theorem applyUpdates_keys_mem (us : List (StreamUpdate × String)) :
    ∀ (st : ClientState) (k : String), k ∈ st.truckData.map Prod.fst →
      k ∈ (applyUpdates st us).truckData.map Prod.fst := by
  induction us with
  | nil => intro st k hk; exact hk
  | cons u us ih =>
      intro st k hk
      rw [applyUpdates_cons]
      exact ih _ _ (by rw [handleStreamUpdate_truckData]; exact upsertAll_keys_mem _ _ _ hk)

theorem runRule_true_of_all_true (cs : List Bool) (h : ∀ c ∈ cs, c = true) :
    runRule true cs = (true, 0) := by
  induction cs with
  | nil => rfl
  | cons c cs ih =>
      have hc : c = true := h c (List.mem_cons_self c cs)
      have := ih (fun x hx => h x (List.mem_cons_of_mem c hx))
      simp [runRule, alertStep, hc, this]

theorem pushTrim_full (b : List Sample) (s : Sample) (hb : b.length = 30) :
    pushTrim b s = b.tail ++ [s] := by
  cases b with
  | nil => simp at hb
  | cons hd tl =>
      have hlen : tl.length = 29 := by simpa using hb
      simp [pushTrim, hlen]

theorem handleInitialState_chart (stc : ClientState) (now : String) (d : InitialState) :
    (handleInitialState stc now d).chartData =
      updateChartsData (upsertAll stc.truckData d.trucks) d.fleet_stats d.fleet_risk now
        { eta := stc.chartData.eta ++
            (d.eta_history.getD []).map (fun h => { t := h.timestamp, v := (jsRound h.avg_eta : ℚ) })
          speed := stc.chartData.speed ++
            (d.speed_history.getD []).map (fun h => { t := h.timestamp, v := h.avg_speed })
          risk := stc.chartData.risk ++
            (d.risk_history.getD []).map (fun h => { t := h.timestamp, v := h.risk_score }) } := by
  obtain ⟨tr, al, k, fr, fs, eh, sh, rh⟩ := d
  cases eh <;> cases sh <;> cases rh <;> simp [handleInitialState]

theorem applyUpdates_alerts_bounded (us : List (StreamUpdate × String)) :
    ∀ st : ClientState, st.alertsList.length ≤ 200 →
      (applyUpdates st us).alertsList.length ≤ 200 := by
  induction us with
  | nil => intro st h; exact h
  | cons u us ih =>
      intro st h
      rw [applyUpdates_cons]
      apply ih
      rw [handleStreamUpdate_alertsList]
      split
      · exact h
      · rw [capAlerts_length]; omega

theorem applyUpdates_total (us : List (StreamUpdate × String)) :
    ∀ st : ClientState, (applyUpdates st us).totalAlertCount
      = st.totalAlertCount + (us.map (fun u => u.1.alerts.length)).sum := by
  induction us with
  | nil => intro st; simp [applyUpdates_nil]
  | cons u us ih =>
      intro st
      rw [applyUpdates_cons, ih, handleStreamUpdate_total]
      simp [List.sum_cons]
      omega

theorem tempBand_exactlyOne (t : Truck) :
    (if tempCompliant t then 1 else 0) + (if tempWarning t then 1 else 0)
      + (if tempCritical t then 1 else 0) = 1 := by
  simp only [tempCompliant, tempWarning, tempCritical, Bool.and_eq_true, Bool.or_eq_true,
    decide_eq_true_eq]
  rcases lt_or_le t.temperature 25 with h1 | h1
  · have hc : ¬(28 ≤ t.temperature ∧ t.temperature ≤ 38) := fun hx => by linarith [hx.1]
    have hw : ¬((t.temperature < 28 ∧ 25 ≤ t.temperature) ∨
        (38 < t.temperature ∧ t.temperature ≤ 42)) := by
      rintro (⟨_, hx⟩ | ⟨hx, _⟩) <;> linarith
    rw [if_neg hc, if_neg hw, if_pos (Or.inl h1)]
  · rcases lt_or_le t.temperature 28 with h2 | h2
    · have hc : ¬(28 ≤ t.temperature ∧ t.temperature ≤ 38) := fun hx => by linarith [hx.1]
      have hcr : ¬(t.temperature < 25 ∨ 42 < t.temperature) := by
        rintro (hx | hx) <;> linarith
      rw [if_neg hc, if_pos (Or.inl ⟨h2, h1⟩), if_neg hcr]
    · rcases le_or_lt t.temperature 38 with h3 | h3
      · have hw : ¬((t.temperature < 28 ∧ 25 ≤ t.temperature) ∨
            (38 < t.temperature ∧ t.temperature ≤ 42)) := by
          rintro (⟨hx, _⟩ | ⟨hx, _⟩) <;> linarith
        have hcr : ¬(t.temperature < 25 ∨ 42 < t.temperature) := by
          rintro (hx | hx) <;> linarith
        rw [if_pos ⟨h2, h3⟩, if_neg hw, if_neg hcr]
      · rcases le_or_lt t.temperature 42 with h4 | h4
        · have hc : ¬(28 ≤ t.temperature ∧ t.temperature ≤ 38) := fun hx => by linarith [hx.2]
          have hcr : ¬(t.temperature < 25 ∨ 42 < t.temperature) := by
            rintro (hx | hx) <;> linarith
          rw [if_neg hc, if_pos (Or.inr ⟨h3, h4⟩), if_neg hcr]
        · have hc : ¬(28 ≤ t.temperature ∧ t.temperature ≤ 38) := fun hx => by linarith [hx.2]
          have hw : ¬((t.temperature < 28 ∧ 25 ≤ t.temperature) ∨
              (38 < t.temperature ∧ t.temperature ≤ 42)) := by
            rintro (⟨hx, _⟩ | ⟨_, hx⟩) <;> linarith
          rw [if_neg hc, if_neg hw, if_pos (Or.inr h4)]

theorem tempCounts_sum (trucks : List Truck) :
    (tempComplianceCounts trucks).1 + (tempComplianceCounts trucks).2.1
      + (tempComplianceCounts trucks).2.2 = trucks.length := by
  simp only [tempComplianceCounts]
  induction trucks with
  | nil => rfl
  | cons t ts ih =>
      have h := tempBand_exactlyOne t
      simp only [List.countP_cons, List.length_cons]
      by_cases hc : tempCompliant t <;> by_cases hw : tempWarning t <;>
        by_cases hcr : tempCritical t <;> simp [hc, hw, hcr] at h ⊢ <;> omega

/-- A stream update carrying 201 alerts, used to exhibit the capped
alert list falling behind the lifetime count. -/
def manyAlertsUpdate : StreamUpdate :=
  { trucks := [], alerts := List.replicate 201 sampleAlert
    kpi := none, fleet_risk := none, fleet_stats := none }

-- ── Claim theorems ──

/-- Claim C1: a client that connects fresh and applies
handleInitialState to an initial_state whose trucks array builds
exactly the live truck table (the table a session connected since tick
0 holds), and then applies any sequence of stream updates, ends with
the same truckData table as the tick-0 session after the same updates;
moreover stream updates only upsert by truck_id and never delete keys. -/
theorem c1_initial_state_convergence (init : InitialState) (stB : ClientState)
    (nowA : String) (us : List (StreamUpdate × String))
    (h : upsertAll [] init.trucks = stB.truckData) :
    (applyUpdates (handleInitialState initClientState nowA init) us).truckData
      = (applyUpdates stB us).truckData ∧
    ∀ k, k ∈ stB.truckData.map Prod.fst →
      k ∈ (applyUpdates stB us).truckData.map Prod.fst := by
  constructor
  · apply applyUpdates_truckData_congr
    have hA : (handleInitialState initClientState nowA init).truckData
        = upsertAll [] init.trucks := rfl
    rw [hA, h]
  · intro k hk
    exact applyUpdates_keys_mem us stB k hk

theorem c1_witness :
    (upsertAll [] [sampleTruck 30]
      = ({ initClientState with truckData := [("TRK-01", sampleTruck 30)] } : ClientState).truckData) ∧
    (applyUpdates (handleInitialState initClientState "10:00:00"
        { trucks := [sampleTruck 30], alerts := [], kpi := none, fleet_risk := none,
          fleet_stats := none, eta_history := none, speed_history := none,
          risk_history := none }) []).truckData
      = (applyUpdates
          { initClientState with truckData := [("TRK-01", sampleTruck 30)] } []).truckData ∧
    "TRK-01" ∈ (applyUpdates
        { initClientState with truckData := [("TRK-01", sampleTruck 30)] } []).truckData.map Prod.fst :=
  ⟨by decide,
   (c1_initial_state_convergence _ _ "10:00:00" [] (by decide)).1,
   (c1_initial_state_convergence
      { trucks := [sampleTruck 30], alerts := [], kpi := none, fleet_risk := none,
        fleet_stats := none, eta_history := none, speed_history := none, risk_history := none }
      { initClientState with truckData := [("TRK-01", sampleTruck 30)] }
      "10:00:00" [] (by decide)).2 "TRK-01" (by decide)⟩

/-- Claim C2: the three chart history buffers stay within 30 samples
across any sequence of stream updates from a bounded state; appending
to a buffer holding exactly 30 samples drops exactly the oldest sample
and keeps the order of the rest; and a fresh client (empty buffers)
that handles an initial_state whose history arrays are within the
server cap of 30 ends with all three buffers within 30. -/
theorem c2_history_buffer_cap (st : ClientState) (us : List (StreamUpdate × String))
    (stc : ClientState) (d : InitialState) (now : String) (b : List Sample) (s : Sample)
    (hste : st.chartData.eta.length ≤ 30) (hsts : st.chartData.speed.length ≤ 30)
    (hstr : st.chartData.risk.length ≤ 30)
    (hb : b.length = 30)
    (hc : stc.chartData = { eta := [], speed := [], risk := [] })
    (hhe : (d.eta_history.getD []).length ≤ 30)
    (hhs : (d.speed_history.getD []).length ≤ 30)
    (hhr : (d.risk_history.getD []).length ≤ 30) :
    ((applyUpdates st us).chartData.eta.length ≤ 30 ∧
     (applyUpdates st us).chartData.speed.length ≤ 30 ∧
     (applyUpdates st us).chartData.risk.length ≤ 30) ∧
    pushTrim b s = b.tail ++ [s] ∧
    ((handleInitialState stc now d).chartData.eta.length ≤ 30 ∧
     (handleInitialState stc now d).chartData.speed.length ≤ 30 ∧
     (handleInitialState stc now d).chartData.risk.length ≤ 30) := by
  refine ⟨applyUpdates_chart_bounded us st hste hsts hstr, pushTrim_full b s hb, ?_⟩
  rw [handleInitialState_chart]
  refine updateChartsData_bounded _ _ _ _ _ ?_ ?_ ?_
  · simpa [hc] using hhe
  · simpa [hc] using hhs
  · simpa [hc] using hhr

theorem c2_witness :
    (List.replicate 30 ({ t := "t0", v := 0 } : Sample)).length = 30 ∧
    pushTrim (List.replicate 30 { t := "t0", v := 0 }) { t := "t1", v := 1 }
      = (List.replicate 30 ({ t := "t0", v := 0 } : Sample)).tail ++ [{ t := "t1", v := 1 }] :=
  ⟨by simp,
   (c2_history_buffer_cap initClientState [] initClientState
      { trucks := [], alerts := [], kpi := none, fleet_risk := none, fleet_stats := none,
        eta_history := none, speed_history := none, risk_history := none }
      "10:00:00" (List.replicate 30 { t := "t0", v := 0 }) { t := "t1", v := 1 }
      (by decide) (by decide) (by decide) (by simp) rfl
      (by decide) (by decide) (by decide)).2.1⟩

/-- Claim C3: across any sequence of stream updates from a state whose
alert list is within the 200 cap, the list never exceeds 200 entries;
and when an update carries alerts that would push the list past 200,
the result is exactly the length-200 suffix of the appended list
(oldest entries evicted, arrival order of the 200 most recent kept). -/
theorem c3_alert_log_cap (st : ClientState) (us : List (StreamUpdate × String))
    (h : st.alertsList.length ≤ 200) :
    (applyUpdates st us).alertsList.length ≤ 200 ∧
    ∀ (now : String) (d : StreamUpdate), d.alerts ≠ [] →
      200 < st.alertsList.length + d.alerts.length →
      (handleStreamUpdate st now d).alertsList
          = (st.alertsList ++ d.alerts).drop (st.alertsList.length + d.alerts.length - 200) ∧
      (handleStreamUpdate st now d).alertsList.length = 200 := by
  constructor
  · exact applyUpdates_alerts_bounded us st h
  · intro now d hne hgt
    rw [handleStreamUpdate_alertsList, if_neg hne]
    have hlen : (st.alertsList ++ d.alerts).length
        = st.alertsList.length + d.alerts.length := List.length_append _ _
    have hcap : capAlerts (st.alertsList ++ d.alerts)
        = (st.alertsList ++ d.alerts).drop (st.alertsList.length + d.alerts.length - 200) := by
      unfold capAlerts
      rw [if_pos (by rw [hlen]; omega), hlen]
    refine ⟨hcap, ?_⟩
    rw [hcap]
    simp only [List.length_drop, hlen]
    omega

theorem c3_witness :
    initClientState.alertsList.length ≤ 200 ∧
    manyAlertsUpdate.alerts ≠ [] ∧
    (handleStreamUpdate initClientState "10:00:00" manyAlertsUpdate).alertsList.length = 200 :=
  ⟨by decide,
   by simp only [manyAlertsUpdate, ne_eq, List.replicate_eq_nil_iff]; omega,
   ((c3_alert_log_cap initClientState [] (by decide)).2 "10:00:00" manyAlertsUpdate
      (by simp only [manyAlertsUpdate, ne_eq, List.replicate_eq_nil_iff]; omega)
      (by simp only [manyAlertsUpdate, initClientState, List.length_replicate,
            List.length_nil]; omega)).2⟩

/-- Claim C4 counterexample: with a single truck at 50 degrees no truck
is compliant, so the compliant-or-1 expression makes the displayed
doughnut data sum to 2 while there is only 1 truck. -/
theorem c4_counterexample :
    (tempComplianceDisplayed [sampleTruck 50]).1
      + (tempComplianceDisplayed [sampleTruck 50]).2.1
      + (tempComplianceDisplayed [sampleTruck 50]).2.2
      ≠ ([sampleTruck 50] : List Truck).length := by
  decide

/-- Claim C4 (amended): the three temperature bands partition the
range, so every truck falls in exactly one band and the computed band
counts sum to the number of trucks; the displayed counts equal the
computed counts (and hence sum to the number of trucks) whenever at
least one truck is compliant, a zero compliant count being displayed
as 1. -/
theorem c4_temperature_bands (t : Truck) (trucks : List Truck) :
    ((if tempCompliant t then 1 else 0) + (if tempWarning t then 1 else 0)
        + (if tempCritical t then 1 else 0) = 1) ∧
    ((tempComplianceCounts trucks).1 + (tempComplianceCounts trucks).2.1
        + (tempComplianceCounts trucks).2.2 = trucks.length) ∧
    ((tempComplianceCounts trucks).1 ≠ 0 →
      tempComplianceDisplayed trucks = tempComplianceCounts trucks) :=
  ⟨tempBand_exactlyOne t, tempCounts_sum trucks,
   fun h => by simp only [tempComplianceDisplayed, if_neg h]⟩

theorem c4_witness :
    (tempComplianceCounts [sampleTruck 30]).1 ≠ 0 ∧
    tempComplianceDisplayed [sampleTruck 30] = tempComplianceCounts [sampleTruck 30] :=
  ⟨by decide, (c4_temperature_bands (sampleTruck 30) [sampleTruck 30]).2.2 (by decide)⟩

/-- Claim C5 counterexample: an ai_response whose source field is the
model value of the wire spec is labelled RULE-BASED, not as coming from
the model (the only model label the code can produce is GEMINI). -/
theorem c5_counterexample :
    (handleAIResponse initClientState.aiPanel
        { response := some "answer", token_usage := none, max_tokens := none,
          source := some "model" }).sourceBadge = "RULE-BASED" ∧
    ¬ (handleAIResponse initClientState.aiPanel
        { response := some "answer", token_usage := none, max_tokens := none,
          source := some "model" }).sourceBadge = "GEMINI" := by
  constructor <;> decide

/-- Claim C5 (amended): the AI source badge shows GEMINI exactly when
the source field equals gemini and RULE-BASED for every other value,
including the model value of the wire spec, so under the spec source
domain the badge always reads RULE-BASED. -/
theorem c5_source_badge (p : AIPanel) (d : AIResp) :
    (handleAIResponse p d).sourceBadge
      = if d.source = some "gemini" then "GEMINI" else "RULE-BASED" := by
  cases h : d.token_usage <;> simp [handleAIResponse, h]

/-- Claim C6: a nonempty trimmed question is sent as an ai_question
frame when the socket is open and POSTed to the REST fallback endpoint
otherwise, and an ai_response payload delivered over the channel is
processed identically to the same payload delivered as the REST reply,
both reducing to handleAIResponse on the AI panel. -/
theorem c6_question_paths (rawInput : String) (h : ¬ jsTrim rawInput = "") :
    sendAIMessage true rawInput = some (AIAction.wsSend "ai_question" (jsTrim rawInput)) ∧
    sendAIMessage false rawInput = some (AIAction.restPost "/api/ai/ask" (jsTrim rawInput)) ∧
    ∀ (st : ClientState) (now : String) (d : AIResp),
      wsDeliverAIResponse st now d = restDeliverAIResponse st d := by
  refine ⟨?_, ?_, fun st now d => rfl⟩ <;> simp [sendAIMessage, h]

theorem c6_witness :
    ¬ (jsTrim "fleet status" = "") ∧
    sendAIMessage true "fleet status"
      = some (AIAction.wsSend "ai_question" (jsTrim "fleet status")) :=
  ⟨by decide, (c6_question_paths "fleet status" (by decide)).1⟩

/-- Claim C7 (modelled from the spec; the backend alert engine is not
among the sources): with edge-triggered per-rule memory an alert is
emitted at a tick exactly when the condition holds and the stored flag
was clear, and a condition continuously true across n consecutive
ticks starting from a clear flag emits exactly one alert, not n. -/
theorem c7_edge_triggered_alerts (prev c : Bool) (n : Nat) (h : 0 < n) :
    ((alertStep prev c).2 = 1 ↔ (c = true ∧ prev = false)) ∧
    runRule false (List.replicate n true) = (true, 1) := by
  constructor
  · cases prev <;> cases c <;> simp [alertStep]
  · obtain ⟨m, rfl⟩ : ∃ m, n = m + 1 := ⟨n - 1, by omega⟩
    have hr := runRule_true_of_all_true (List.replicate m true)
      (fun c hc => List.eq_of_mem_replicate hc)
    simp [List.replicate_succ, runRule, alertStep, hr]

theorem c7_witness : 0 < 5 ∧ runRule false (List.replicate 5 true) = (true, 1) :=
  ⟨by decide, (c7_edge_triggered_alerts false true 5 (by decide)).2⟩

/-- Claim C8: a JSON parse failure, a message with an unrecognised
type tag, and a pong all leave truckData, alertsList, chartData and
totalAlertCount (in fact the entire client state) unchanged; every
handler in the embedding is a total function, so no exception escapes
the message handler. -/
theorem c8_unknown_message_noop (st : ClientState) (now : String) (ty : String) :
    onWsMessage st now none = st ∧
    handleMessage st now (Message.other ty) = st ∧
    handleMessage st now Message.pong = st ∧
    (onWsMessage st now none).truckData = st.truckData ∧
    (handleMessage st now (Message.other ty)).alertsList = st.alertsList ∧
    (handleMessage st now (Message.other ty)).chartData = st.chartData ∧
    (handleMessage st now (Message.other ty)).totalAlertCount = st.totalAlertCount :=
  ⟨rfl, rfl, rfl, rfl, rfl, rfl, rfl⟩

/-- Claim C9: totalAlertCount grows by exactly the number of alerts in
each stream update and never decreases, the total-alerts analytics
stat and the alert badge show this uncapped lifetime count, and a run
delivering 201 alerts leaves the capped alert list strictly shorter
than the lifetime count. -/
theorem c9_total_alert_count (st : ClientState) (us : List (StreamUpdate × String))
    (k : Option KPI) (fs : Option FleetStats) (fr : Option FleetRisk) :
    (applyUpdates st us).totalAlertCount
        = st.totalAlertCount + (us.map (fun u => u.1.alerts.length)).sum ∧
    st.totalAlertCount ≤ (applyUpdates st us).totalAlertCount ∧
    (updateAnalyticsStats (applyUpdates st us) k fs fr).totalAlerts
        = (applyUpdates st us).totalAlertCount ∧
    alertCountBadge (applyUpdates st us) = (applyUpdates st us).totalAlertCount ∧
    (applyUpdates initClientState [(manyAlertsUpdate, "10:00:00")]).alertsList.length
        < (applyUpdates initClientState [(manyAlertsUpdate, "10:00:00")]).totalAlertCount := by
  refine ⟨applyUpdates_total us st, ?_, rfl, rfl, ?_⟩
  · rw [applyUpdates_total]; omega
  · have h1 : (applyUpdates initClientState [(manyAlertsUpdate, "10:00:00")]).totalAlertCount
        = 201 := by
      rw [applyUpdates_cons, applyUpdates_nil, handleStreamUpdate_total]
      simp only [manyAlertsUpdate, initClientState, List.length_replicate]
    have hne : manyAlertsUpdate.alerts ≠ [] := by
      simp only [manyAlertsUpdate, ne_eq, List.replicate_eq_nil_iff]
      omega
    have h2 : (applyUpdates initClientState [(manyAlertsUpdate, "10:00:00")]).alertsList.length
        = 200 := by
      rw [applyUpdates_cons, applyUpdates_nil, handleStreamUpdate_alertsList,
        if_neg hne, capAlerts_length]
      simp only [manyAlertsUpdate, initClientState, List.length_append,
        List.length_replicate, List.length_nil]
      omega
    omega

/-- Claim C10: the marker renderer maps every risk level outside
CRITICAL, HIGH, MEDIUM to the low-risk green colour, while the risk
gauge maps every overall level outside LOW, MEDIUM, HIGH to the
critical badge style and colour; in particular a level outside the
four named ones renders as lowest risk on the map and highest risk on
the gauge. -/
theorem c10_risk_renderers_disagree :
    (∀ s : String, ¬ s = "CRITICAL" → ¬ s = "HIGH" → ¬ s = "MEDIUM" →
      getMarkerColor s = "#3cf91a") ∧
    (∀ s : String, ¬ s = "LOW" → ¬ s = "MEDIUM" → ¬ s = "HIGH" →
      riskBadgeStyle s = "card-badge badge-critical" ∧ riskGaugeColor s = "#ef4444") ∧
    (getMarkerColor "UNKNOWN" = "#3cf91a" ∧ riskGaugeColor "UNKNOWN" = "#ef4444" ∧
      riskBadgeStyle "UNKNOWN" = "card-badge badge-critical") := by
  refine ⟨fun s h1 h2 h3 => ?_, fun s h1 h2 h3 => ?_, by decide, by decide, by decide⟩
  · simp [getMarkerColor, h1, h2, h3]
  · exact ⟨by simp [riskBadgeStyle, h1, h2, h3], by simp [riskGaugeColor, h1, h2, h3]⟩

theorem c10_witness :
    (¬ "UNKNOWN" = "CRITICAL") ∧ getMarkerColor "UNKNOWN" = "#3cf91a" ∧
    riskBadgeStyle "UNKNOWN" = "card-badge badge-critical" ∧
    riskGaugeColor "UNKNOWN" = "#ef4444" :=
  ⟨by decide,
   c10_risk_renderers_disagree.1 "UNKNOWN" (by decide) (by decide) (by decide),
   (c10_risk_renderers_disagree.2.1 "UNKNOWN" (by decide) (by decide) (by decide)).1,
   (c10_risk_renderers_disagree.2.1 "UNKNOWN" (by decide) (by decide) (by decide)).2⟩

end GreenSupply
